import Mathlib

/-!
# Verification of the terminusdb-store high-level store module

Shallow embedding of `src/store/mod.rs` (the `Store` / `StoreLayer` /
`StoreLayerBuilder` / `NamedGraph` façade of the layered triple store) and of
the parts of the layer and storage machinery that the façade calls but whose
implementation files are not part of the sources (the `Layer` trait
implementations, `SimpleLayerBuilder`, `LabelStore`, `LayerStore`).  Those
missing parts are modelled from the specification and are marked
`Modelled from the spec:` in their doc comments.

Layers are modelled at the level of string triples: dictionaries map interned
ids bijectively to strings (spec §3 invariant 5/6 and testable property 4,
dictionary round-trip), so the effective triple set of a layer is faithfully
represented as a set of string triples, and `id_triple_to_string` on a layer's
own triples is the identity of that representation.
-/

/-- A 160-bit layer name, represented as five 32-bit words (`[u32; 5]` in the
source).  The words are modelled as `Nat`; names are opaque and only compared
for equality. -/
structure Id160 where
  w0 : Nat
  w1 : Nat
  w2 : Nat
  w3 : Nat
  w4 : Nat
deriving DecidableEq, Repr

/-- The object position of a string triple: a resource node or a literal
value, carrying the human-readable form (`ObjectType` in the source). -/
inductive ObjectType where
  | node (s : String)
  | value (s : String)
deriving DecidableEq, Repr

/-- A triple in human-readable form (`StringTriple` in the source). -/
structure StringTriple where
  subject : String
  predicate : String
  object : ObjectType
deriving DecidableEq, Repr

/-- A triple in interned-id form (`IdTriple` in the source): subject and
predicate are u64 ids, the object id is tagged externally. -/
structure IdTriple where
  subject : Nat
  predicate : Nat
  object : Nat
deriving DecidableEq, Repr

/-- Error kinds surfaced to callers (`std::io::ErrorKind` values used by the
source: `NotFound`, `InvalidData`, `AlreadyExists`, plus transport errors). -/
inductive IOErrorKind where
  | notFound
  | invalidData
  | alreadyExists
  | other
deriving DecidableEq, Repr

/-- An error value carrying a kind and the descriptive message the source
attaches (`io::Error::new(kind, msg)`). -/
structure IOError where
  kind : IOErrorKind
  msg : String
deriving DecidableEq, Repr

/-- Modelled from the spec: a layer of the store (spec §3).  The layer
implementation files are not among the sources; per spec §3 a layer is either
a base layer (no parent, empty removals, invariant 3) or a child layer with a
parent and per-layer addition and removal sets.  The parent chain is finite
and acyclic (invariant 2), which the inductive structure captures; additions
and removals are carried as lists of string triples (see the module comment
on the string-level dictionary representation). -/
inductive LayerM where
  | base (name : Id160) (additions : List StringTriple)
  | child (name : Id160) (parent : LayerM) (additions removals : List StringTriple)
deriving DecidableEq, Repr

/-- `Layer::name()`: the 160-bit name of the layer. -/
def LayerM.name : LayerM → Id160
  | .base n _ => n
  | .child n _ _ _ => n

/-- `Layer::parent_name()`: the name of the parent layer, `None` for a base
layer. -/
def LayerM.parentName : LayerM → Option Id160
  | .base _ _ => none
  | .child _ p _ _ => some p.name

/-- Modelled from the spec: the per-layer addition set, as enumerated by
`triple_additions()` and resolved to string triples
(`id_triple_to_string`). -/
def LayerM.layerAdditions : LayerM → List StringTriple
  | .base _ a => a
  | .child _ _ a _ => a

/-- Modelled from the spec: the per-layer removal set, as enumerated by
`triple_removals()` and resolved to string triples. -/
def LayerM.layerRemovals : LayerM → List StringTriple
  | .base _ _ => []
  | .child _ _ _ r => r

/-- Modelled from the spec: the effective triple set of a layer (spec §3):
starting from the empty set at the oldest ancestor, fold
`triples := (triples ∪ additions) \ removals` up the chain. -/
def LayerM.triples : LayerM → Finset StringTriple
  | .base _ a => a.toFinset
  | .child _ p a r => (p.triples ∪ a.toFinset) \ r.toFinset

/-- Modelled from the spec: the enumeration produced by `triples()` — a lazy
finite sequence of exactly the effective triple set (spec §4.A), here one
concrete enumeration of it (enumeration order is irrelevant to every claim
below, which are stated on the underlying sets). -/
def LayerM.triplesList : LayerM → List StringTriple
  | .base _ a => a.dedup
  | .child _ p a r => ((p.triplesList ++ a).dedup).filter (fun t => decide (t ∉ r))

/-- `Layer::string_triple_exists`: membership of a string triple in the
effective triple set (spec §4.A, existence queries). -/
def LayerM.string_triple_exists (l : LayerM) (t : StringTriple) : Bool :=
  decide (t ∈ l.triples)

/-- The names of a layer and all its ancestors, found by following
`parent_name` pointers. -/
def LayerM.chainNames : LayerM → List Id160
  | .base n _ => [n]
  | .child n p _ _ => n :: p.chainNames

/-- Modelled from the spec: `layer_is_ancestor_of(candidate, anchor)` — true
iff `candidate == anchor` or `candidate` is reachable by following
`parent_name` from `anchor` (spec §4.C). -/
def LayerM.isAncestorOf (candidate : Id160) : LayerM → Bool
  | .base n _ => decide (candidate = n)
  | .child n p _ _ => decide (candidate = n) || LayerM.isAncestorOf candidate p

/-- Modelled from the spec: `LayerStore::layer_is_ancestor_of` as invoked by
`set_head` (source lines 543-551), which passes the target layer first and
the current head second.  For `set_head` to "advance history only if target
is a descendant of the current head" (spec §4.F) — the behaviour the
repository's own tests check — the first parameter of the store method is the
descendant/anchor and the second the candidate ancestor, i.e. the call
computes the spec's `layer_is_ancestor_of(candidate := current head,
anchor := target)`.  The store resolves the descendant's name through the
layer pool; since names are globally unique (spec §3) the walk from the
target's own parent chain is the same walk, so the model takes the target
layer value directly. -/
def layer_is_ancestor_of (descendant : LayerM) (ancestorCandidate : Id160) : Bool :=
  LayerM.isAncestorOf ancestorCandidate descendant

/-- A label record (spec §3): a name, a CAS version, and an optional head
layer name. -/
structure Label where
  name : String
  version : Nat
  layer : Option Id160
deriving DecidableEq, Repr

/-- Modelled from the spec: the persisted state of a `LabelStore` (memory
backend, spec §6): a collection of label records, keyed by name. -/
abbrev LabelStoreState := List Label

/-- Modelled from the spec: `LabelStore::get_label(name)` — returns the
current `(name, version, layer)` record, or `None` when absent (spec §4.D). -/
def get_label (s : LabelStoreState) (name : String) : Option Label :=
  s.find? (fun l => decide (l.name = name))

/-- Modelled from the spec: `LabelStore::set_label(old_label, new_layer_name)`
— compare-and-set: succeeds only if the persisted version equals
`old_label.version`, in which case the stored record becomes
`(name, old.version + 1, Some(new_layer_name))` and is returned; on version
mismatch (or a missing record) it returns `None` and leaves the store
unchanged (spec §4.D, return type `Option<Label>`). -/
def set_label (s : LabelStoreState) (old : Label) (newLayer : Id160) :
    Option Label × LabelStoreState :=
  match get_label s old.name with
  | none => (none, s)
  | some stored =>
    if stored.version = old.version then
      let nl : Label := ⟨old.name, old.version + 1, some newLayer⟩
      (some nl, s.map (fun l => if l.name = old.name then nl else l))
    else (none, s)

/-- The ancestry check `set_head` performs (source lines 543-551): trivially
true when the label currently points at no layer, otherwise the store's
ancestry query with the target as descendant and the current head as
candidate ancestor. -/
def set_head_check (lab : Label) (target : LayerM) : Bool :=
  match lab.layer with
  | none => true
  | some retrieved => layer_is_ancestor_of target retrieved

/-- `NamedGraph::set_head` (source lines 535-558).  The two
`LabelStoreState` arguments are the persisted label-store states at the two
suspension points of the async source: `sRead` at the `get_label` call and
`sCas` at the `set_label` call (they differ exactly when a concurrent writer
intervened).  As in the source, the `Option<Label>` result of `set_label` is
discarded and the returned boolean is the ancestry-check outcome alone. -/
def set_head (label : String) (target : LayerM) (sRead sCas : LabelStoreState) :
    Except IOError (Bool × LabelStoreState) :=
  match get_label sRead label with
  | none => .error ⟨.notFound, "label not found"⟩
  | some lab =>
    let set_is_ok := set_head_check lab target
    if set_is_ok then
      .ok (set_is_ok, (set_label sCas lab target.name).2)
    else
      .ok (set_is_ok, sCas)

/-- Modelled from the spec: the inner `SimpleLayerBuilder` (spec §4.B) — a
mutable staging area holding the pre-assigned layer name, the optional parent
layer value, and the staged string- and id-level additions and removals.
Id-level staging is carried opaquely: no claim below commits a builder with
staged id triples, and the string-level effective-set semantics of
`BuilderM.toLayer` covers the string staging used by squash, apply_delta and
apply_diff. -/
structure BuilderM where
  name : Id160
  parent : Option LayerM
  additions : List StringTriple
  removals : List StringTriple
  idAdditions : List IdTriple
  idRemovals : List IdTriple
deriving DecidableEq, Repr

/-- Modelled from the spec: committing a builder produces the one layer it
stages (spec §4.B): a base layer when the builder has no parent (removals on
a base builder are normalized away, spec §3 invariants 3 and 7 — no claim
below stages a removal on a parentless builder), otherwise a child layer over
the parent with the staged additions and removals. -/
def BuilderM.toLayer (b : BuilderM) : LayerM :=
  match b.parent with
  | none => .base b.name b.additions
  | some p => .child b.name p b.additions b.removals

/-- The state of a `StoreLayerBuilder` (source lines 37-42): the parent and
name snapshotted at construction, and the `RwLock<Option<Box<dyn
LayerBuilder>>>` slot, `none` once the builder has been consumed by a commit
attempt.  The back-pointer to the `Store` is not carried: the backend it
reaches is passed explicitly to the operations that use it. -/
structure StoreLayerBuilderS where
  parent : Option LayerM
  name : Id160
  builder : Option BuilderM
deriving DecidableEq, Repr

/-- `StoreLayerBuilder::wrap` (source lines 56-63): snapshot the inner
builder's parent and name and place the builder in the slot. -/
def StoreLayerBuilderS.wrap (b : BuilderM) : StoreLayerBuilderS :=
  ⟨b.parent, b.name, some b⟩

/-- Modelled from the spec: `LayerStore::create_base_layer` followed by
`StoreLayerBuilder::new` (source lines 45-54, spec §4.C): a fresh open
builder with no parent, named by a freshly allocated id (passed in, since
name allocation draws from a random source). -/
def create_base_layer (freshName : Id160) : StoreLayerBuilderS :=
  StoreLayerBuilderS.wrap ⟨freshName, none, [], [], [], []⟩

/-- `StoreLayer::open_write` (source lines 224-232) together with the
spec-modelled `LayerStore::create_child_layer` (spec §4.C): a fresh open
builder whose parent is this layer. -/
def open_write (l : LayerM) (freshName : Id160) : StoreLayerBuilderS :=
  StoreLayerBuilderS.wrap ⟨freshName, some l, [], [], [], []⟩

/-- `StoreLayerBuilder::with_builder` (source lines 65-80): run a mutation on
the staged builder, or fail with `InvalidData("builder has already been
committed")` when the slot is empty. -/
def with_builder {α : Type} (st : StoreLayerBuilderS) (f : BuilderM → α × BuilderM) :
    Except IOError α × StoreLayerBuilderS :=
  match st.builder with
  | none => (.error ⟨.invalidData, "builder has already been committed"⟩, st)
  | some b =>
    let (r, b') := f b
    (.ok r, { st with builder := some b' })

/-- `StoreLayerBuilder::add_string_triple` (source lines 92-94); the inner
builder stages the triple as an addition (spec §4.B). -/
def add_string_triple (st : StoreLayerBuilderS) (t : StringTriple) :
    Except IOError Unit × StoreLayerBuilderS :=
  with_builder st (fun b => ((), { b with additions := b.additions ++ [t] }))

/-- `StoreLayerBuilder::add_id_triple` (source lines 97-99). -/
def add_id_triple (st : StoreLayerBuilderS) (t : IdTriple) :
    Except IOError Unit × StoreLayerBuilderS :=
  with_builder st (fun b => ((), { b with idAdditions := b.idAdditions ++ [t] }))

/-- `StoreLayerBuilder::remove_string_triple` (source lines 102-104); the
inner builder stages the triple as a removal (spec §4.B). -/
def remove_string_triple (st : StoreLayerBuilderS) (t : StringTriple) :
    Except IOError Unit × StoreLayerBuilderS :=
  with_builder st (fun b => ((), { b with removals := b.removals ++ [t] }))

/-- `StoreLayerBuilder::remove_id_triple` (source lines 107-109). -/
def remove_id_triple (st : StoreLayerBuilderS) (t : IdTriple) :
    Except IOError Unit × StoreLayerBuilderS :=
  with_builder st (fun b => ((), { b with idRemovals := b.idRemovals ++ [t] }))

/-- `StoreLayerBuilder::committed` (source lines 112-117): true iff the
builder slot has been emptied. -/
def committed (st : StoreLayerBuilderS) : Bool :=
  st.builder.isNone

/-- `StoreLayerBuilder::commit_no_load` (source lines 120-139).  The builder
is swapped out of the slot *before* the backend commit is attempted (the
source comment: setting it to `None` ensures `committed()` detects we already
committed, "or tried to do so anyway").  `io` is the outcome of the abstract
backend `LayerBuilder::commit_boxed`, whose implementation is not among the
sources; per spec §7 it may surface transport/I-O errors as-is. -/
def commit_no_load (st : StoreLayerBuilderS) (io : BuilderM → Except IOError Unit) :
    Except IOError Unit × StoreLayerBuilderS :=
  let builder := st.builder
  let st' := { st with builder := none }
  match builder with
  | none => (.error ⟨.invalidData, "builder has already been committed"⟩, st')
  | some b => (io b, st')

/-- `StoreLayerBuilder::commit` (source lines 142-151): `commit_no_load`,
then re-materialize the just-written layer by name through the store.  `getl`
is the abstract `LayerStore::get_layer`; an `.ok none` result models the
source's `expect` panic on a just-created layer missing from the store. -/
def commit (st : StoreLayerBuilderS) (io : BuilderM → Except IOError Unit)
    (getl : Id160 → Except IOError (Option LayerM)) :
    Except IOError (Option LayerM) × StoreLayerBuilderS :=
  match commit_no_load st io with
  | (.error e, st') => (.error e, st')
  | (.ok _, st') =>
    match getl st.name with
    | .error e => (.error e, st')
    | .ok l => (.ok l, st')

/-- Modelled from the spec: `StoreLayerBuilder::commit` against the memory
backend (spec §6 persisted state layout): `commit_boxed` persists exactly the
staged layer under the builder's name and `get_layer` retrieves it, so a
successful commit of an open builder yields `BuilderM.toLayer` of the staged
builder. -/
def commitIdeal (st : StoreLayerBuilderS) : Except IOError LayerM × StoreLayerBuilderS :=
  match st.builder with
  | none => (.error ⟨.invalidData, "builder has already been committed"⟩,
             { st with builder := none })
  | some b => (.ok b.toLayer, { st with builder := none })

/-- Staging loop with the per-triple result dropped, as in `apply_delta`
(source lines 158-163: the `Result` of `add_string_triple` is discarded). -/
def add_all_drop (st : StoreLayerBuilderS) (ts : List StringTriple) : StoreLayerBuilderS :=
  ts.foldl (fun s t => (add_string_triple s t).2) st

/-- Staging loop with the per-triple result dropped, as in `apply_delta`
(source lines 165-169: the `Result` of `remove_string_triple` is
discarded). -/
def remove_all_drop (st : StoreLayerBuilderS) (ts : List StringTriple) : StoreLayerBuilderS :=
  ts.foldl (fun s t => (remove_string_triple s t).2) st

/-- Staging loop with the per-triple result unwrapped, as in `squash` and the
addition branch of `apply_diff` (`self.add_string_triple(st).unwrap()`):
`none` models the panic aborting the bulk operation. -/
def add_all_unwrap (st : StoreLayerBuilderS) : List StringTriple → Option StoreLayerBuilderS
  | [] => some st
  | t :: ts =>
    match add_string_triple st t with
    | (.ok _, st') => add_all_unwrap st' ts
    | (.error _, _) => none

/-- Staging loop with the per-triple result unwrapped, as in the removal
branch of `apply_diff` (`self.remove_string_triple(st).unwrap()`): `none`
models the panic aborting the bulk operation. -/
def remove_all_unwrap (st : StoreLayerBuilderS) : List StringTriple → Option StoreLayerBuilderS
  | [] => some st
  | t :: ts =>
    match remove_string_triple st t with
    | (.ok _, st') => remove_all_unwrap st' ts
    | (.error _, _) => none

/-- `StoreLayerBuilder::apply_delta` (source lines 153-174): stream the
delta's per-layer additions, staging each as an addition, and its per-layer
removals, staging each as a removal; every per-triple result is discarded and
the operation returns `Ok(())`.  The two parallel branches touch disjoint
staging fields, so the `rayon::join` is modelled sequentially (spec §9:
implementations may serialize the parallel fan-out without changing
observable semantics); `id_triple_to_string` on the delta's own triples
always succeeds in the string-level representation. -/
def apply_delta (st : StoreLayerBuilderS) (delta : LayerM) :
    Except IOError Unit × StoreLayerBuilderS :=
  let st1 := add_all_drop st delta.layerAdditions
  let st2 := remove_all_drop st1 delta.layerRemovals
  (.ok (), st2)

/-- `StoreLayerBuilder::apply_diff` (source lines 176-207): if the builder
has a parent, remove (unwrapping the result) every effective triple of the
parent absent from `other`; then add (unwrapping the result) every effective
triple of `other` absent from the parent — or every triple of `other` when
there is no parent.  `none` models a panic of an unwrap aborting the bulk
operation; on completion the source returns `Ok(())`. -/
def apply_diff (st : StoreLayerBuilderS) (other : LayerM) :
    Option (Except IOError Unit × StoreLayerBuilderS) :=
  let step1 : Option StoreLayerBuilderS :=
    match st.parent with
    | none => some st
    | some this =>
      remove_all_unwrap st
        (this.triplesList.filter (fun t => !(other.string_triple_exists t)))
  match step1 with
  | none => none
  | some st1 =>
    let toAdd : List StringTriple :=
      match st.parent with
      | none => other.triplesList
      | some this => other.triplesList.filter (fun t => !(this.string_triple_exists t))
    match add_all_unwrap st1 toAdd with
    | none => none
    | some st2 => some (.ok (), st2)

/-- `StoreLayer::squash` (source lines 249-258): create a fresh base builder,
stream this layer's effective triples, resolve each to a string triple
(always succeeds on the layer's own triples) and add it to the new builder,
unwrapping the result; then commit.  `none` models a panic of an unwrap or a
failed commit. -/
def squash (l : LayerM) (freshName : Id160) : Option LayerM :=
  match add_all_unwrap (create_base_layer freshName) l.triplesList with
  | none => none
  | some st =>
    match commitIdeal st with
    | (.ok n, _) => some n
    | (.error _, _) => none

/-- Modelled from the spec: the aggregate counts over a chain returned by
`all_counts()` (`LayerCounts` in the source, whose definition file is not
among the sources; spec §3 aggregate counts). -/
structure LayerCounts where
  node_count : Nat
  predicate_count : Nat
  value_count : Nat
deriving DecidableEq, Repr

/-- The `Layer` trait as a capability record (spec §9: "Layer, LabelStore,
LayerStore are capability sets"), abstracting over the per-key lookup types
`SL`/`LSL` (subject), `PL`/`LPL` (predicate), `OL`/`LOL` (object) returned by
the lookup families, with iterators modelled as lists.  `StoreLayerW` wraps
an arbitrary inhabitant; the delegation theorems below are independent of the
inner implementation. -/
structure LayerOps (SL LSL PL LPL OL LOL : Type) where
  name : Id160
  parent_name : Option Id160
  node_and_value_count : Nat
  predicate_count : Nat
  subject_id : String → Option Nat
  predicate_id : String → Option Nat
  object_node_id : String → Option Nat
  object_value_id : String → Option Nat
  id_subject : Nat → Option String
  id_predicate : Nat → Option String
  id_object : Nat → Option ObjectType
  subjects : List SL
  subject_additions : List LSL
  subject_removals : List LSL
  lookup_subject : Nat → Option SL
  lookup_subject_addition : Nat → Option LSL
  lookup_subject_removal : Nat → Option LSL
  objects : List OL
  object_additions : List LOL
  object_removals : List LOL
  lookup_object : Nat → Option OL
  lookup_object_addition : Nat → Option LOL
  lookup_object_removal : Nat → Option LOL
  predicates : List PL
  predicate_additions : List LPL
  predicate_removals : List LPL
  lookup_predicate : Nat → Option PL
  lookup_predicate_addition : Nat → Option LPL
  lookup_predicate_removal : Nat → Option LPL
  triple_exists : Nat → Nat → Nat → Bool
  triple_addition_exists : Nat → Nat → Nat → Bool
  triple_removal_exists : Nat → Nat → Nat → Bool
  triples : List IdTriple
  triple_additions : List IdTriple
  triple_removals : List IdTriple
  triples_s : Nat → List IdTriple
  triple_additions_s : Nat → List IdTriple
  triple_removals_s : Nat → List IdTriple
  triples_sp : Nat → Nat → List IdTriple
  triple_additions_sp : Nat → Nat → List IdTriple
  triple_removals_sp : Nat → Nat → List IdTriple
  triples_p : Nat → List IdTriple
  triple_additions_p : Nat → List IdTriple
  triple_removals_p : Nat → List IdTriple
  triples_o : Nat → List IdTriple
  triple_additions_o : Nat → List IdTriple
  triple_removals_o : Nat → List IdTriple
  triple_layer_addition_count : Nat
  triple_layer_removal_count : Nat
  triple_addition_count : Nat
  triple_removal_count : Nat
  all_counts : LayerCounts

/-- `StoreLayer` (source lines 212-216): an inner `Layer` plus a back-pointer
to the store it came out of (the store type `σ` is irrelevant to the read
queries). -/
structure StoreLayerW (σ SL LSL PL LPL OL LOL : Type) where
  layer : LayerOps SL LSL PL LPL OL LOL
  store : σ

namespace StoreLayerW

variable {σ SL LSL PL LPL OL LOL : Type}

/-- `impl Layer for StoreLayer`, source lines 262-264. -/
def name (w : StoreLayerW σ SL LSL PL LPL OL LOL) : Id160 := w.layer.name

/-- Source lines 266-268. -/
def parent_name (w : StoreLayerW σ SL LSL PL LPL OL LOL) : Option Id160 :=
  w.layer.parent_name

/-- Source lines 270-272. -/
def node_and_value_count (w : StoreLayerW σ SL LSL PL LPL OL LOL) : Nat :=
  w.layer.node_and_value_count

/-- Source lines 274-276. -/
def predicate_count (w : StoreLayerW σ SL LSL PL LPL OL LOL) : Nat :=
  w.layer.predicate_count

/-- Source lines 278-280. -/
def subject_id (w : StoreLayerW σ SL LSL PL LPL OL LOL) (s : String) : Option Nat :=
  w.layer.subject_id s

/-- Source lines 282-284. -/
def predicate_id (w : StoreLayerW σ SL LSL PL LPL OL LOL) (s : String) : Option Nat :=
  w.layer.predicate_id s

/-- Source lines 286-288. -/
def object_node_id (w : StoreLayerW σ SL LSL PL LPL OL LOL) (s : String) : Option Nat :=
  w.layer.object_node_id s

/-- Source lines 290-292. -/
def object_value_id (w : StoreLayerW σ SL LSL PL LPL OL LOL) (s : String) : Option Nat :=
  w.layer.object_value_id s

/-- Source lines 294-296. -/
def id_subject (w : StoreLayerW σ SL LSL PL LPL OL LOL) (i : Nat) : Option String :=
  w.layer.id_subject i

/-- Source lines 298-300. -/
def id_predicate (w : StoreLayerW σ SL LSL PL LPL OL LOL) (i : Nat) : Option String :=
  w.layer.id_predicate i

/-- Source lines 302-304. -/
def id_object (w : StoreLayerW σ SL LSL PL LPL OL LOL) (i : Nat) : Option ObjectType :=
  w.layer.id_object i

/-- Source lines 306-308. -/
def subjects (w : StoreLayerW σ SL LSL PL LPL OL LOL) : List SL := w.layer.subjects

/-- Source lines 310-312. -/
def subject_additions (w : StoreLayerW σ SL LSL PL LPL OL LOL) : List LSL :=
  w.layer.subject_additions

/-- Source lines 314-316. -/
def subject_removals (w : StoreLayerW σ SL LSL PL LPL OL LOL) : List LSL :=
  w.layer.subject_removals

/-- Source lines 318-320. -/
def lookup_subject (w : StoreLayerW σ SL LSL PL LPL OL LOL) (i : Nat) : Option SL :=
  w.layer.lookup_subject i

/-- Source lines 322-324. -/
def lookup_subject_addition (w : StoreLayerW σ SL LSL PL LPL OL LOL) (i : Nat) : Option LSL :=
  w.layer.lookup_subject_addition i

/-- Source lines 326-328. -/
def lookup_subject_removal (w : StoreLayerW σ SL LSL PL LPL OL LOL) (i : Nat) : Option LSL :=
  w.layer.lookup_subject_removal i

/-- Source lines 330-332. -/
def objects (w : StoreLayerW σ SL LSL PL LPL OL LOL) : List OL := w.layer.objects

/-- Source lines 334-336. -/
def object_additions (w : StoreLayerW σ SL LSL PL LPL OL LOL) : List LOL :=
  w.layer.object_additions

/-- Source lines 338-340. -/
def object_removals (w : StoreLayerW σ SL LSL PL LPL OL LOL) : List LOL :=
  w.layer.object_removals

/-- Source lines 342-344. -/
def lookup_object (w : StoreLayerW σ SL LSL PL LPL OL LOL) (i : Nat) : Option OL :=
  w.layer.lookup_object i

/-- Source lines 346-348. -/
def lookup_object_addition (w : StoreLayerW σ SL LSL PL LPL OL LOL) (i : Nat) : Option LOL :=
  w.layer.lookup_object_addition i

/-- Source lines 350-352. -/
def lookup_object_removal (w : StoreLayerW σ SL LSL PL LPL OL LOL) (i : Nat) : Option LOL :=
  w.layer.lookup_object_removal i

/-- Source lines 354-356. -/
def predicates (w : StoreLayerW σ SL LSL PL LPL OL LOL) : List PL := w.layer.predicates

/-- Source lines 358-360. -/
def predicate_additions (w : StoreLayerW σ SL LSL PL LPL OL LOL) : List LPL :=
  w.layer.predicate_additions

/-- Source lines 362-364. -/
def predicate_removals (w : StoreLayerW σ SL LSL PL LPL OL LOL) : List LPL :=
  w.layer.predicate_removals

/-- Source lines 366-368. -/
def lookup_predicate (w : StoreLayerW σ SL LSL PL LPL OL LOL) (i : Nat) : Option PL :=
  w.layer.lookup_predicate i

/-- Source lines 370-372. -/
def lookup_predicate_addition (w : StoreLayerW σ SL LSL PL LPL OL LOL) (i : Nat) :
    Option LPL :=
  w.layer.lookup_predicate_addition i

/-- Source lines 374-376. -/
def lookup_predicate_removal (w : StoreLayerW σ SL LSL PL LPL OL LOL) (i : Nat) :
    Option LPL :=
  w.layer.lookup_predicate_removal i

/-- Source lines 378-380. -/
def triple_exists (w : StoreLayerW σ SL LSL PL LPL OL LOL) (s p o : Nat) : Bool :=
  w.layer.triple_exists s p o

/-- Source lines 382-385. -/
def triple_addition_exists (w : StoreLayerW σ SL LSL PL LPL OL LOL) (s p o : Nat) : Bool :=
  w.layer.triple_addition_exists s p o

/-- Source lines 387-389. -/
def triple_removal_exists (w : StoreLayerW σ SL LSL PL LPL OL LOL) (s p o : Nat) : Bool :=
  w.layer.triple_removal_exists s p o

/-- Source lines 391-393. -/
def triples (w : StoreLayerW σ SL LSL PL LPL OL LOL) : List IdTriple := w.layer.triples

/-- Source lines 395-397. -/
def triple_additions (w : StoreLayerW σ SL LSL PL LPL OL LOL) : List IdTriple :=
  w.layer.triple_additions

/-- Source lines 399-401. -/
def triple_removals (w : StoreLayerW σ SL LSL PL LPL OL LOL) : List IdTriple :=
  w.layer.triple_removals

/-- Source lines 403-405. -/
def triples_s (w : StoreLayerW σ SL LSL PL LPL OL LOL) (s : Nat) : List IdTriple :=
  w.layer.triples_s s

/-- Source lines 407-409. -/
def triple_additions_s (w : StoreLayerW σ SL LSL PL LPL OL LOL) (s : Nat) : List IdTriple :=
  w.layer.triple_additions_s s

/-- Source lines 411-413. -/
def triple_removals_s (w : StoreLayerW σ SL LSL PL LPL OL LOL) (s : Nat) : List IdTriple :=
  w.layer.triple_removals_s s

/-- Source lines 415-421. -/
def triples_sp (w : StoreLayerW σ SL LSL PL LPL OL LOL) (s p : Nat) : List IdTriple :=
  w.layer.triples_sp s p

/-- Source lines 423-429. -/
def triple_additions_sp (w : StoreLayerW σ SL LSL PL LPL OL LOL) (s p : Nat) :
    List IdTriple :=
  w.layer.triple_additions_sp s p

/-- Source lines 431-437. -/
def triple_removals_sp (w : StoreLayerW σ SL LSL PL LPL OL LOL) (s p : Nat) :
    List IdTriple :=
  w.layer.triple_removals_sp s p

/-- Source lines 439-441. -/
def triples_p (w : StoreLayerW σ SL LSL PL LPL OL LOL) (p : Nat) : List IdTriple :=
  w.layer.triples_p p

/-- Source lines 443-445. -/
def triple_additions_p (w : StoreLayerW σ SL LSL PL LPL OL LOL) (p : Nat) : List IdTriple :=
  w.layer.triple_additions_p p

/-- Source lines 447-449. -/
def triple_removals_p (w : StoreLayerW σ SL LSL PL LPL OL LOL) (p : Nat) : List IdTriple :=
  w.layer.triple_removals_p p

/-- Source lines 451-453. -/
def triples_o (w : StoreLayerW σ SL LSL PL LPL OL LOL) (o : Nat) : List IdTriple :=
  w.layer.triples_o o

/-- Source lines 455-457. -/
def triple_additions_o (w : StoreLayerW σ SL LSL PL LPL OL LOL) (o : Nat) : List IdTriple :=
  w.layer.triple_additions_o o

/-- Source lines 459-461. -/
def triple_removals_o (w : StoreLayerW σ SL LSL PL LPL OL LOL) (o : Nat) : List IdTriple :=
  w.layer.triple_removals_o o

/-- Source lines 467-469. -/
def triple_layer_addition_count (w : StoreLayerW σ SL LSL PL LPL OL LOL) : Nat :=
  w.layer.triple_layer_addition_count

/-- Source lines 471-473. -/
def triple_layer_removal_count (w : StoreLayerW σ SL LSL PL LPL OL LOL) : Nat :=
  w.layer.triple_layer_removal_count

/-- Source lines 475-477. -/
def triple_addition_count (w : StoreLayerW σ SL LSL PL LPL OL LOL) : Nat :=
  w.layer.triple_addition_count

/-- Source lines 479-481. -/
def triple_removal_count (w : StoreLayerW σ SL LSL PL LPL OL LOL) : Nat :=
  w.layer.triple_removal_count

/-- Source lines 483-485. -/
def all_counts (w : StoreLayerW σ SL LSL PL LPL OL LOL) : LayerCounts :=
  w.layer.all_counts

end StoreLayerW

/-- Sample layer name used in concrete instances. -/
def idA : Id160 := ⟨0, 0, 0, 0, 1⟩

/-- Sample layer name used in concrete instances. -/
def idB : Id160 := ⟨0, 0, 0, 0, 2⟩

/-- Sample layer name used in concrete instances. -/
def idC : Id160 := ⟨0, 0, 0, 0, 3⟩

/-- Sample string triple (`StringTriple::new_value("cow", "says", "moo")`). -/
def stMoo : StringTriple := ⟨"cow", "says", .value "moo"⟩

/-- Sample string triple (`StringTriple::new_value("duck", "says", "quack")`). -/
def stQuack : StringTriple := ⟨"duck", "says", .value "quack"⟩

/-- Sample id triple. -/
def itSample : IdTriple := ⟨1, 2, 3⟩

/-- Sample base layer holding one triple. -/
def layerBaseA : LayerM := .base idA [stMoo]

/-- Sample child layer of `layerBaseA` adding one triple. -/
def layerChildB : LayerM := .child idB layerBaseA [stQuack] []

/-- A builder whose slot has already been consumed by a commit attempt. -/
def committedBuilder : StoreLayerBuilderS := ⟨none, idC, none⟩

/-- A fresh open base builder. -/
def openBuilder : StoreLayerBuilderS := create_base_layer idC

/-- A backend commit outcome that succeeds. -/
def okIo : BuilderM → Except IOError Unit := fun _ => .ok ()

/-- A backend commit outcome that fails with a transport error. -/
def failIo : BuilderM → Except IOError Unit := fun _ => .error ⟨.other, "disk full"⟩

/-- A backend layer retrieval that finds nothing. -/
def okGetl : Id160 → Except IOError (Option LayerM) := fun _ => .ok none

/-- A label store holding one label at version 0 pointing at `idA`. -/
def sOne : LabelStoreState := [⟨"g", 0, some idA⟩]

/-- A label store holding one label at version 0 with no head layer. -/
def sNoneHead : LabelStoreState := [⟨"g", 0, none⟩]

/-- The same label after a concurrent writer bumped the version to 1. -/
def sBumped : LabelStoreState := [⟨"g", 1, none⟩]

/-! ## Helper lemmas -/

/-- The spec's ancestry predicate coincides with membership of the candidate
in the anchor's chain of names. -/
theorem isAncestorOf_iff_mem_chainNames (c : Id160) (a : LayerM) :
    LayerM.isAncestorOf c a = true ↔ c ∈ a.chainNames := by
  induction a with
  | base n adds => simp [LayerM.isAncestorOf, LayerM.chainNames]
  | child n p adds rems ih =>
    simp [LayerM.isAncestorOf, LayerM.chainNames, ih]

/-- The concrete enumeration `triplesList` enumerates exactly the effective
triple set. -/
theorem mem_triplesList (l : LayerM) (t : StringTriple) :
    t ∈ l.triplesList ↔ t ∈ l.triples := by
  induction l with
  | base n adds => simp [LayerM.triplesList, LayerM.triples]
  | child n p adds rems ih =>
    simp [LayerM.triplesList, LayerM.triples, List.mem_filter, List.mem_dedup,
      List.mem_append, ih, Finset.mem_sdiff, Finset.mem_union, List.mem_toFinset]

/-- A label found under a name carries that name. -/
theorem get_label_name {s : LabelStoreState} {lbl : String} {lab : Label}
    (h : get_label s lbl = some lab) : lab.name = lbl := by
  have := List.find?_some h
  simpa using this

/-- Folding `add_string_triple` (result unwrapped) over an open builder never
panics and appends the staged triples in order. -/
theorem add_all_unwrap_open (ts : List StringTriple) :
    ∀ (p : Option LayerM) (n : Id160) (b : BuilderM),
    add_all_unwrap ⟨p, n, some b⟩ ts =
      some ⟨p, n, some { b with additions := b.additions ++ ts }⟩ := by
  induction ts with
  | nil => intro p n b; simp [add_all_unwrap]
  | cons t ts ih =>
    intro p n b
    simp [add_all_unwrap, add_string_triple, with_builder, ih, List.append_assoc]

/-- Folding `remove_string_triple` (result unwrapped) over an open builder
never panics and appends the staged triples in order. -/
theorem remove_all_unwrap_open (ts : List StringTriple) :
    ∀ (p : Option LayerM) (n : Id160) (b : BuilderM),
    remove_all_unwrap ⟨p, n, some b⟩ ts =
      some ⟨p, n, some { b with removals := b.removals ++ ts }⟩ := by
  induction ts with
  | nil => intro p n b; simp [remove_all_unwrap]
  | cons t ts ih =>
    intro p n b
    simp [remove_all_unwrap, remove_string_triple, with_builder, ih, List.append_assoc]

/-- Folding `add_string_triple` (result dropped) over an open builder appends
the staged triples in order. -/
theorem add_all_drop_open (ts : List StringTriple) :
    ∀ (p : Option LayerM) (n : Id160) (b : BuilderM),
    add_all_drop ⟨p, n, some b⟩ ts =
      ⟨p, n, some { b with additions := b.additions ++ ts }⟩ := by
  induction ts with
  | nil => intro p n b; simp [add_all_drop]
  | cons t ts ih =>
    intro p n b
    simp [add_all_drop, add_string_triple, with_builder, List.append_assoc]
    simpa [add_all_drop] using ih p n { b with additions := b.additions ++ [t] }

/-- Folding `remove_string_triple` (result dropped) over an open builder
appends the staged triples in order. -/
theorem remove_all_drop_open (ts : List StringTriple) :
    ∀ (p : Option LayerM) (n : Id160) (b : BuilderM),
    remove_all_drop ⟨p, n, some b⟩ ts =
      ⟨p, n, some { b with removals := b.removals ++ ts }⟩ := by
  induction ts with
  | nil => intro p n b; simp [remove_all_drop]
  | cons t ts ih =>
    intro p n b
    simp [remove_all_drop, remove_string_triple, with_builder, List.append_assoc]
    simpa [remove_all_drop] using ih p n { b with removals := b.removals ++ [t] }

/-- Folding `add_string_triple` (result dropped) over a committed builder is
a no-op: every per-triple error is discarded. -/
theorem add_all_drop_committed (ts : List StringTriple) (p : Option LayerM) (n : Id160) :
    add_all_drop ⟨p, n, none⟩ ts = ⟨p, n, none⟩ := by
  induction ts with
  | nil => simp [add_all_drop]
  | cons t ts ih => simpa [add_all_drop, add_string_triple, with_builder] using ih

/-- Folding `remove_string_triple` (result dropped) over a committed builder
is a no-op: every per-triple error is discarded. -/
theorem remove_all_drop_committed (ts : List StringTriple) (p : Option LayerM) (n : Id160) :
    remove_all_drop ⟨p, n, none⟩ ts = ⟨p, n, none⟩ := by
  induction ts with
  | nil => simp [remove_all_drop]
  | cons t ts ih => simpa [remove_all_drop, remove_string_triple, with_builder] using ih

/-- A completed unwrapping addition fold preserves the builder's snapshotted
name and parent. -/
theorem add_all_unwrap_frame (ts : List StringTriple) :
    ∀ (st st' : StoreLayerBuilderS), add_all_unwrap st ts = some st' →
      st'.name = st.name ∧ st'.parent = st.parent := by
  induction ts with
  | nil =>
    intro st st' h
    simp [add_all_unwrap] at h
    subst h; exact ⟨rfl, rfl⟩
  | cons t ts ih =>
    intro st st' h
    obtain ⟨p, n, ob⟩ := st
    cases ob with
    | none => simp [add_all_unwrap, add_string_triple, with_builder] at h
    | some b =>
      simp only [add_all_unwrap, add_string_triple, with_builder] at h
      obtain ⟨h1, h2⟩ := ih _ _ h
      exact ⟨h1, h2⟩

/-- A completed unwrapping removal fold preserves the builder's snapshotted
name and parent. -/
theorem remove_all_unwrap_frame (ts : List StringTriple) :
    ∀ (st st' : StoreLayerBuilderS), remove_all_unwrap st ts = some st' →
      st'.name = st.name ∧ st'.parent = st.parent := by
  induction ts with
  | nil =>
    intro st st' h
    simp [remove_all_unwrap] at h
    subst h; exact ⟨rfl, rfl⟩
  | cons t ts ih =>
    intro st st' h
    obtain ⟨p, n, ob⟩ := st
    cases ob with
    | none => simp [remove_all_unwrap, remove_string_triple, with_builder] at h
    | some b =>
      simp only [remove_all_unwrap, remove_string_triple, with_builder] at h
      obtain ⟨h1, h2⟩ := ih _ _ h
      exact ⟨h1, h2⟩

/-! ## Claim theorems -/

/-- Claim C1: for every named graph whose label exists, `set_head(target)`
returns `Ok` of exactly the ancestry check read at the label lookup — true if
and only if the label's current layer is `None` or the current head layer is
the target or reachable from the target by following `parent_name` pointers,
i.e. the spec's `layer_is_ancestor_of(current_layer, target)`. -/
theorem set_head_ancestry (lbl : String) (target : LayerM)
    (sR sC : LabelStoreState) (lab : Label)
    (h : get_label sR lbl = some lab) :
    (∃ s', set_head lbl target sR sC = .ok (set_head_check lab target, s')) ∧
    (set_head_check lab target = true ↔
      lab.layer = none ∨ ∃ cur, lab.layer = some cur ∧ cur ∈ target.chainNames) := by
  constructor
  · refine ⟨if set_head_check lab target then (set_label sC lab target.name).2 else sC, ?_⟩
    simp only [set_head, h]
    by_cases hc : set_head_check lab target = true
    · simp [hc]
    · simp [hc]
  · unfold set_head_check
    cases hl : lab.layer with
    | none => simp
    | some cur =>
      simp [layer_is_ancestor_of, isAncestorOf_iff_mem_chainNames]

/-- Witness for C1 at a concrete store: label "g" points at the base layer
`idA` and the target is its child, so the check passes and `set_head`
advances the label. -/
theorem set_head_ancestry_witness :
    get_label sOne "g" = some ⟨"g", 0, some idA⟩ ∧
    ((∃ s', set_head "g" layerChildB sOne sOne =
        .ok (set_head_check ⟨"g", 0, some idA⟩ layerChildB, s')) ∧
     (set_head_check ⟨"g", 0, some idA⟩ layerChildB = true ↔
       (⟨"g", 0, some idA⟩ : Label).layer = none ∨
       ∃ cur, (⟨"g", 0, some idA⟩ : Label).layer = some cur ∧
         cur ∈ layerChildB.chainNames)) :=
  ⟨rfl, set_head_ancestry "g" layerChildB sOne sOne ⟨"g", 0, some idA⟩ rfl⟩

/-- Claim C2 counterexample: the label is read at version 0 with no head (the
ancestry check passes), a concurrent writer bumps the persisted version to 1
before the CAS, so `set_label` fails the compare-and-set and returns `None` —
yet `set_head` returns `Ok(true)`, not `false` as the claim states, because
the source discards the result of `set_label`. -/
theorem set_head_cas_failure_cex :
    set_head "g" (.base idA []) sNoneHead sBumped = .ok (true, sBumped) ∧
    (set_label sBumped ⟨"g", 0, none⟩ (LayerM.base idA []).name).1 = none :=
  ⟨rfl, rfl⟩

/-- Claim C2 amended: when the ancestry check passes but the persisted
version no longer matches the label read by `set_head`, the compare-and-set
of `set_label` fails and returns `None`; `set_head` discards that outcome —
it raises no error and returns `true` (not `false`), leaving the label store
unchanged. -/
theorem set_head_cas_mismatch_discarded (lbl : String) (target : LayerM)
    (sR sC : LabelStoreState) (lab stored : Label)
    (hR : get_label sR lbl = some lab)
    (hok : set_head_check lab target = true)
    (hC : get_label sC lbl = some stored)
    (hv : stored.version ≠ lab.version) :
    set_head lbl target sR sC = .ok (true, sC) ∧
    (set_label sC lab target.name).1 = none := by
  have hname : lab.name = lbl := get_label_name hR
  have hsl : set_label sC lab target.name = (none, sC) := by
    unfold set_label
    rw [hname, hC]
    simp [hv]
  refine ⟨?_, by simp [hsl]⟩
  simp [set_head, hR, hok, hsl]

/-- Witness for the amended C2 at a concrete store: version read 0, persisted
version 1. -/
theorem set_head_cas_mismatch_discarded_witness :
    get_label sNoneHead "g" = some ⟨"g", 0, none⟩ ∧
    set_head_check ⟨"g", 0, none⟩ (.base idA []) = true ∧
    get_label sBumped "g" = some ⟨"g", 1, none⟩ ∧
    (1 : Nat) ≠ 0 ∧
    (set_head "g" (.base idA []) sNoneHead sBumped = .ok (true, sBumped) ∧
     (set_label sBumped ⟨"g", 0, none⟩ (LayerM.base idA []).name).1 = none) :=
  ⟨rfl, rfl, rfl, by decide,
   set_head_cas_mismatch_discarded "g" (.base idA []) sNoneHead sBumped
     ⟨"g", 0, none⟩ ⟨"g", 1, none⟩ rfl rfl rfl (by decide)⟩

/-- Claim C3 counterexample: a fresh builder whose backend commit fails.
`commit_no_load` returns the backend error — no commit has succeeded — yet
`committed()` is already true, because the source swaps the builder out of
the slot before attempting the backend commit ("or tried to do so anyway"). -/
theorem committed_true_after_failed_commit :
    (commit_no_load openBuilder failIo).1 = .error ⟨.other, "disk full"⟩ ∧
    committed (commit_no_load openBuilder failIo).2 = true :=
  ⟨rfl, rfl⟩

/-- Claim C3 amended: `committed()` is false at construction, is preserved by
every mutating operation, and flips to true across the first commit *attempt*
(`commit` or `commit_no_load`) regardless of whether the backend commit
succeeds, staying true thereafter. -/
theorem committed_flips_on_first_attempt :
    (∀ b, committed (StoreLayerBuilderS.wrap b) = false) ∧
    (∀ st t, committed (add_string_triple st t).2 = committed st) ∧
    (∀ st t, committed (remove_string_triple st t).2 = committed st) ∧
    (∀ st t, committed (add_id_triple st t).2 = committed st) ∧
    (∀ st t, committed (remove_id_triple st t).2 = committed st) ∧
    (∀ st io, committed (commit_no_load st io).2 = true) ∧
    (∀ st io getl, committed (commit st io getl).2 = true) := by
  refine ⟨fun b => rfl, ?_, ?_, ?_, ?_, ?_, ?_⟩
  · intro st t; obtain ⟨p, n, ob⟩ := st; cases ob <;> rfl
  · intro st t; obtain ⟨p, n, ob⟩ := st; cases ob <;> rfl
  · intro st t; obtain ⟨p, n, ob⟩ := st; cases ob <;> rfl
  · intro st t; obtain ⟨p, n, ob⟩ := st; cases ob <;> rfl
  · intro st io; obtain ⟨p, n, ob⟩ := st; cases ob <;> rfl
  · intro st io getl
    obtain ⟨p, n, ob⟩ := st
    cases ob with
    | none => rfl
    | some b =>
      simp only [commit, commit_no_load]
      cases io b with
      | error e => rfl
      | ok u =>
        cases getl n with
        | error e => rfl
        | ok l => rfl

/-- Claim C4: on a builder in the `Committed` state every mutating operation
and every further `commit`/`commit_no_load` fails with `InvalidData` carrying
the message "builder has already been committed", and any commit attempt
leaves the builder committed — so a second commit on the same builder always
fails this way. -/
theorem committed_builder_rejects (st : StoreLayerBuilderS)
    (t : StringTriple) (it : IdTriple) (io : BuilderM → Except IOError Unit)
    (getl : Id160 → Except IOError (Option LayerM))
    (h : st.builder = none) :
    add_string_triple st t =
      (.error ⟨.invalidData, "builder has already been committed"⟩, st) ∧
    add_id_triple st it =
      (.error ⟨.invalidData, "builder has already been committed"⟩, st) ∧
    remove_string_triple st t =
      (.error ⟨.invalidData, "builder has already been committed"⟩, st) ∧
    remove_id_triple st it =
      (.error ⟨.invalidData, "builder has already been committed"⟩, st) ∧
    (commit_no_load st io).1 =
      .error ⟨.invalidData, "builder has already been committed"⟩ ∧
    (commit st io getl).1 =
      .error ⟨.invalidData, "builder has already been committed"⟩ ∧
    (commitIdeal st).1 =
      .error ⟨.invalidData, "builder has already been committed"⟩ ∧
    ∀ (st0 : StoreLayerBuilderS) (io0 : BuilderM → Except IOError Unit),
      ((commit_no_load st0 io0).2).builder = none := by
  obtain ⟨p, n, ob⟩ := st
  have hb : ob = none := h
  subst hb
  refine ⟨rfl, rfl, rfl, rfl, rfl, rfl, rfl, ?_⟩
  intro st0 io0
  obtain ⟨p0, n0, ob0⟩ := st0
  cases ob0 <;> rfl

/-- Witness for C4 on a concrete committed builder. -/
theorem committed_builder_rejects_witness :
    committedBuilder.builder = none ∧
    (add_string_triple committedBuilder stMoo =
      (.error ⟨.invalidData, "builder has already been committed"⟩, committedBuilder) ∧
     add_id_triple committedBuilder itSample =
      (.error ⟨.invalidData, "builder has already been committed"⟩, committedBuilder) ∧
     remove_string_triple committedBuilder stMoo =
      (.error ⟨.invalidData, "builder has already been committed"⟩, committedBuilder) ∧
     remove_id_triple committedBuilder itSample =
      (.error ⟨.invalidData, "builder has already been committed"⟩, committedBuilder) ∧
     (commit_no_load committedBuilder okIo).1 =
      .error ⟨.invalidData, "builder has already been committed"⟩ ∧
     (commit committedBuilder okIo okGetl).1 =
      .error ⟨.invalidData, "builder has already been committed"⟩ ∧
     (commitIdeal committedBuilder).1 =
      .error ⟨.invalidData, "builder has already been committed"⟩ ∧
     ∀ (st0 : StoreLayerBuilderS) (io0 : BuilderM → Except IOError Unit),
       ((commit_no_load st0 io0).2).builder = none) :=
  ⟨rfl, committed_builder_rejects committedBuilder stMoo itSample okIo okGetl rfl⟩

/-- Claim C5: squashing any materialized layer succeeds and produces a base
layer with the same effective triple set (as string triples) and no
parent. -/
theorem squash_equivalence (l : LayerM) (n : Id160) :
    ∃ N, squash l n = some N ∧ N.triples = l.triples ∧ N.parentName = none := by
  refine ⟨.base n l.triplesList, ?_, ?_, rfl⟩
  · simp [squash, create_base_layer, StoreLayerBuilderS.wrap, add_all_unwrap_open,
      commitIdeal, BuilderM.toLayer]
  · ext t
    simp [LayerM.triples, mem_triplesList]

/-- Claim C6: applying a delta layer `D` to a builder opened on `L` and
committing yields a layer whose effective triple set is
`(L.triples ∪ D.additions) \ D.removals`, with `D`'s per-layer addition and
removal sets read as string triples. -/
theorem apply_delta_rebase (L D : LayerM) (n : Id160) :
    ∃ st N, apply_delta (open_write L n) D = (.ok (), st) ∧
      (commitIdeal st).1 = .ok N ∧
      N.triples = (L.triples ∪ D.layerAdditions.toFinset) \ D.layerRemovals.toFinset := by
  refine ⟨⟨some L, n, some ⟨n, some L, D.layerAdditions, D.layerRemovals, [], []⟩⟩,
    .child n L D.layerAdditions D.layerRemovals, ?_, rfl, rfl⟩
  simp [apply_delta, open_write, StoreLayerBuilderS.wrap, add_all_drop_open,
    remove_all_drop_open]

/-- Claim C7: diffing a builder opened on `L` (or a fresh base builder with
no parent) against a layer `O` and committing yields a layer whose effective
triple set equals `O`'s: triples of `L` absent from `O` are removed, triples
of `O` absent from `L` are added. -/
theorem apply_diff_convergence (L O : LayerM) (n : Id160) :
    (∃ st N, apply_diff (open_write L n) O = some (.ok (), st) ∧
       (commitIdeal st).1 = .ok N ∧ N.triples = O.triples) ∧
    (∃ st N, apply_diff (create_base_layer n) O = some (.ok (), st) ∧
       (commitIdeal st).1 = .ok N ∧ N.triples = O.triples) := by
  constructor
  · refine ⟨⟨some L, n, some ⟨n, some L,
        O.triplesList.filter (fun t => !(L.string_triple_exists t)),
        L.triplesList.filter (fun t => !(O.string_triple_exists t)), [], []⟩⟩,
      .child n L (O.triplesList.filter (fun t => !(L.string_triple_exists t)))
        (L.triplesList.filter (fun t => !(O.string_triple_exists t))), ?_, rfl, ?_⟩
    · simp [apply_diff, open_write, StoreLayerBuilderS.wrap, remove_all_unwrap_open,
        add_all_unwrap_open]
    · ext t
      simp [LayerM.triples, List.mem_filter, mem_triplesList,
        LayerM.string_triple_exists, Bool.not_eq_true', decide_eq_false_iff_not]
      tauto
  · refine ⟨⟨none, n, some ⟨n, none, O.triplesList, [], [], []⟩⟩,
      .base n O.triplesList, ?_, rfl, ?_⟩
    · simp [apply_diff, create_base_layer, StoreLayerBuilderS.wrap, add_all_unwrap_open]
    · ext t
      simp [LayerM.triples, mem_triplesList]

/-- Claim C8 counterexample: on an already-committed builder — where every
`add_string_triple` fails with `InvalidData` — `apply_diff` of a layer
holding one triple panics (the per-triple `unwrap` aborts the bulk
operation) instead of confining the error to that triple and returning
`()`. -/
theorem apply_diff_panics_cex :
    apply_diff committedBuilder (.base idA [stMoo]) = none := rfl

/-- Claim C8 amended: the two bulk operations differ. In `apply_delta` a
per-triple staging error is confined to that triple — the results are
discarded, the bulk operation completes and returns `()` (on a committed
builder every triple fails and the state is unchanged).  In `apply_diff` a
per-triple staging error is unwrapped and panics, aborting the bulk
operation. -/
theorem per_triple_error_policy (st : StoreLayerBuilderS) (d : LayerM)
    (n : Id160) (o : LayerM)
    (hc : st.builder = none) (ho : o.triplesList ≠ []) :
    apply_delta st d = (.ok (), st) ∧
    apply_diff ⟨none, n, none⟩ o = none := by
  constructor
  · obtain ⟨p, n', ob⟩ := st
    have hb : ob = none := hc
    subst hb
    simp [apply_delta, add_all_drop_committed, remove_all_drop_committed]
  · cases hl : o.triplesList with
    | nil => exact absurd hl ho
    | cons t ts =>
      simp [apply_diff, hl, add_all_unwrap, add_string_triple, with_builder]

/-- Witness for the amended C8 on a concrete committed builder and concrete
layers. -/
theorem per_triple_error_policy_witness :
    committedBuilder.builder = none ∧
    layerBaseA.triplesList ≠ [] ∧
    (apply_delta committedBuilder layerChildB = (.ok (), committedBuilder) ∧
     apply_diff ⟨none, idC, none⟩ layerBaseA = none) :=
  ⟨rfl, by decide,
   per_triple_error_policy committedBuilder layerChildB idC layerBaseA rfl (by decide)⟩

/-- Claim C9: wrapping a layer in a `StoreLayer` is observationally
transparent for every read query of the `Layer` interface — name, parent
name, counts, dictionary lookups, existence tests, all triple enumerations
and their prefix and additions/removals variants, and the per-key lookup
families all return exactly the result of the same query on the inner
wrapped layer. -/
theorem store_layer_transparent {σ SL LSL PL LPL OL LOL : Type}
    (w : StoreLayerW σ SL LSL PL LPL OL LOL) (s p o i : Nat) (str : String) :
    w.name = w.layer.name ∧
    w.parent_name = w.layer.parent_name ∧
    w.node_and_value_count = w.layer.node_and_value_count ∧
    w.predicate_count = w.layer.predicate_count ∧
    w.subject_id str = w.layer.subject_id str ∧
    w.predicate_id str = w.layer.predicate_id str ∧
    w.object_node_id str = w.layer.object_node_id str ∧
    w.object_value_id str = w.layer.object_value_id str ∧
    w.id_subject i = w.layer.id_subject i ∧
    w.id_predicate i = w.layer.id_predicate i ∧
    w.id_object i = w.layer.id_object i ∧
    w.subjects = w.layer.subjects ∧
    w.subject_additions = w.layer.subject_additions ∧
    w.subject_removals = w.layer.subject_removals ∧
    w.lookup_subject i = w.layer.lookup_subject i ∧
    w.lookup_subject_addition i = w.layer.lookup_subject_addition i ∧
    w.lookup_subject_removal i = w.layer.lookup_subject_removal i ∧
    w.objects = w.layer.objects ∧
    w.object_additions = w.layer.object_additions ∧
    w.object_removals = w.layer.object_removals ∧
    w.lookup_object i = w.layer.lookup_object i ∧
    w.lookup_object_addition i = w.layer.lookup_object_addition i ∧
    w.lookup_object_removal i = w.layer.lookup_object_removal i ∧
    w.predicates = w.layer.predicates ∧
    w.predicate_additions = w.layer.predicate_additions ∧
    w.predicate_removals = w.layer.predicate_removals ∧
    w.lookup_predicate i = w.layer.lookup_predicate i ∧
    w.lookup_predicate_addition i = w.layer.lookup_predicate_addition i ∧
    w.lookup_predicate_removal i = w.layer.lookup_predicate_removal i ∧
    w.triple_exists s p o = w.layer.triple_exists s p o ∧
    w.triple_addition_exists s p o = w.layer.triple_addition_exists s p o ∧
    w.triple_removal_exists s p o = w.layer.triple_removal_exists s p o ∧
    w.triples = w.layer.triples ∧
    w.triple_additions = w.layer.triple_additions ∧
    w.triple_removals = w.layer.triple_removals ∧
    w.triples_s s = w.layer.triples_s s ∧
    w.triple_additions_s s = w.layer.triple_additions_s s ∧
    w.triple_removals_s s = w.layer.triple_removals_s s ∧
    w.triples_sp s p = w.layer.triples_sp s p ∧
    w.triple_additions_sp s p = w.layer.triple_additions_sp s p ∧
    w.triple_removals_sp s p = w.layer.triple_removals_sp s p ∧
    w.triples_p p = w.layer.triples_p p ∧
    w.triple_additions_p p = w.layer.triple_additions_p p ∧
    w.triple_removals_p p = w.layer.triple_removals_p p ∧
    w.triples_o o = w.layer.triples_o o ∧
    w.triple_additions_o o = w.layer.triple_additions_o o ∧
    w.triple_removals_o o = w.layer.triple_removals_o o ∧
    w.triple_layer_addition_count = w.layer.triple_layer_addition_count ∧
    w.triple_layer_removal_count = w.layer.triple_layer_removal_count ∧
    w.triple_addition_count = w.layer.triple_addition_count ∧
    w.triple_removal_count = w.layer.triple_removal_count ∧
    w.all_counts = w.layer.all_counts :=
  ⟨rfl, rfl, rfl, rfl, rfl, rfl, rfl, rfl, rfl, rfl, rfl, rfl, rfl,
   rfl, rfl, rfl, rfl, rfl, rfl, rfl, rfl, rfl, rfl, rfl, rfl, rfl,
   rfl, rfl, rfl, rfl, rfl, rfl, rfl, rfl, rfl, rfl, rfl, rfl, rfl,
   rfl, rfl, rfl, rfl, rfl, rfl, rfl, rfl, rfl, rfl, rfl, rfl, rfl⟩

/-- A completed `apply_diff` preserves the builder's snapshotted name and
parent. -/
theorem apply_diff_frame (st : StoreLayerBuilderS) (o : LayerM)
    (r : Except IOError Unit × StoreLayerBuilderS)
    (hd : apply_diff st o = some r) :
    r.2.name = st.name ∧ r.2.parent = st.parent := by
  rcases hp : st.parent with _ | this
  · simp only [apply_diff, hp] at hd
    cases ha : add_all_unwrap st o.triplesList with
    | none => rw [ha] at hd; simp at hd
    | some st2 =>
      rw [ha] at hd
      simp at hd
      obtain ⟨h1, h2⟩ := add_all_unwrap_frame _ _ _ ha
      rw [← hd]
      exact ⟨h1, h2.trans hp⟩
  · simp only [apply_diff, hp] at hd
    cases hr : remove_all_unwrap st
        (this.triplesList.filter (fun t => !(o.string_triple_exists t))) with
    | none => rw [hr] at hd; simp at hd
    | some st1 =>
      rw [hr] at hd
      simp only [] at hd
      cases ha : add_all_unwrap st1
          (o.triplesList.filter (fun t => !(this.string_triple_exists t))) with
      | none => rw [ha] at hd; simp at hd
      | some st2 =>
        rw [ha] at hd
        simp at hd
        obtain ⟨h1, h2⟩ := add_all_unwrap_frame _ _ _ ha
        obtain ⟨h3, h4⟩ := remove_all_unwrap_frame _ _ _ hr
        rw [← hd]
        exact ⟨h1.trans h3, (h2.trans h4).trans hp⟩

/-- Claim C10: `name()` and `parent()` of a `StoreLayerBuilder` are total
field reads of values snapshotted at construction, and every operation on the
builder — the four mutators, `commit_no_load`, `commit` (successful or
failed), `apply_delta` and `apply_diff` — leaves both unchanged, so they
return the same values in every builder state. -/
theorem builder_name_parent_stable :
    (∀ b, (StoreLayerBuilderS.wrap b).name = b.name ∧
          (StoreLayerBuilderS.wrap b).parent = b.parent) ∧
    (∀ st t, (add_string_triple st t).2.name = st.name ∧
             (add_string_triple st t).2.parent = st.parent) ∧
    (∀ st t, (remove_string_triple st t).2.name = st.name ∧
             (remove_string_triple st t).2.parent = st.parent) ∧
    (∀ st t, (add_id_triple st t).2.name = st.name ∧
             (add_id_triple st t).2.parent = st.parent) ∧
    (∀ st t, (remove_id_triple st t).2.name = st.name ∧
             (remove_id_triple st t).2.parent = st.parent) ∧
    (∀ st io, (commit_no_load st io).2.name = st.name ∧
              (commit_no_load st io).2.parent = st.parent) ∧
    (∀ st io getl, (commit st io getl).2.name = st.name ∧
                   (commit st io getl).2.parent = st.parent) ∧
    (∀ st, (commitIdeal st).2.name = st.name ∧
           (commitIdeal st).2.parent = st.parent) ∧
    (∀ st d, (apply_delta st d).2.name = st.name ∧
             (apply_delta st d).2.parent = st.parent) ∧
    (∀ st o, match apply_diff st o with
             | none => True
             | some r => r.2.name = st.name ∧ r.2.parent = st.parent) := by
  refine ⟨fun b => ⟨rfl, rfl⟩, ?_, ?_, ?_, ?_, ?_, ?_, ?_, ?_, ?_⟩
  · intro st t; obtain ⟨p, n, ob⟩ := st; cases ob <;> exact ⟨rfl, rfl⟩
  · intro st t; obtain ⟨p, n, ob⟩ := st; cases ob <;> exact ⟨rfl, rfl⟩
  · intro st t; obtain ⟨p, n, ob⟩ := st; cases ob <;> exact ⟨rfl, rfl⟩
  · intro st t; obtain ⟨p, n, ob⟩ := st; cases ob <;> exact ⟨rfl, rfl⟩
  · intro st io; obtain ⟨p, n, ob⟩ := st; cases ob <;> exact ⟨rfl, rfl⟩
  · intro st io getl
    obtain ⟨p, n, ob⟩ := st
    cases ob with
    | none => exact ⟨rfl, rfl⟩
    | some b =>
      simp only [commit, commit_no_load]
      cases io b with
      | error e => exact ⟨rfl, rfl⟩
      | ok u =>
        cases getl n with
        | error e => exact ⟨rfl, rfl⟩
        | ok l => exact ⟨rfl, rfl⟩
  · intro st; obtain ⟨p, n, ob⟩ := st; cases ob <;> exact ⟨rfl, rfl⟩
  · intro st d
    obtain ⟨p, n, ob⟩ := st
    cases ob with
    | none => simp [apply_delta, add_all_drop_committed, remove_all_drop_committed]
    | some b => simp [apply_delta, add_all_drop_open, remove_all_drop_open]
  · intro st o
    cases hd : apply_diff st o with
    | none => trivial
    | some r => exact apply_diff_frame st o r hd
